import Mathlib

/-!
Verification of the nadfun buy-then-sell trading script (`src/rust/src/main.rs`).

The script is shallowly embedded:
* `U256` values become `Nat` with explicit `2 ^ 256` bounds; the `uint`-crate
  semantics of `*` and `-` (panic on overflow / underflow) become `Option Nat`
  where `none` models the panic.
* The environment is a record of `Option String` fields; configuration loading
  (`AppConfig::from_env`) becomes `Except String AppConfig`.
* The async orchestration in `main` becomes a pure function `runMain` over an
  `Oracle` record supplying the responses of every external collaborator
  (RPC client construction, quote, gas estimate, buy, balance, sell); the
  network-visible behaviour is returned as a list of `Event`s in call order.
-/

/-- Checked 256-bit subtraction: `a - b` for `ethers::types::U256`.
The `uint` crate's `Sub` impl panics on underflow; `none` models the panic. -/
def u256_sub (a b : Nat) : Option Nat :=
  if b ≤ a then some (a - b) else none

/-- Checked 256-bit multiplication: `a * b` for `ethers::types::U256`.
The `uint` crate's `Mul` impl panics on overflow; `none` models the panic. -/
def u256_mul (a b : Nat) : Option Nat :=
  if a * b < 2 ^ 256 then some (a * b) else none

/-- Model of `fn apply_slippage(amount: U256, slippage_bps: u64) -> U256` from
`src/rust/src/main.rs` lines 175-179:
`amount * (basis - slip) / basis` with `basis = 10_000`.
`none` models the panic of the underlying `U256` subtraction (when
`slippage_bps > 10000`) or multiplication (when the product would not fit
in 256 bits).  `U256` division by the non-zero constant `10_000` is total. -/
def apply_slippage (amount slippage_bps : Nat) : Option Nat :=
  (u256_sub 10000 slippage_bps).bind fun d =>
    (u256_mul amount d).map fun p => p / 10000

/-- Decimal digit test, as in Rust's character-level numeric parsing. -/
def isDecDigit (c : Char) : Bool :=
  '0' ≤ c && c ≤ '9'

/-- Value of a decimal digit. -/
def decVal (c : Char) : Nat :=
  c.toNat - '0'.toNat

/-- Accumulating decimal parse: all characters must be decimal digits
(an empty list yields the accumulator, matching `U256::from_dec_str`,
which returns `Ok(0)` on the empty string). -/
def digitsVal : List Char → Nat → Option Nat
  | [], acc => some acc
  | c :: cs, acc =>
    if isDecDigit c then digitsVal cs (acc * 10 + decVal c) else none

/-- Model of `U256::from_dec_str`: digits only, value must fit in 256 bits. -/
def fromDecStrU256 (cs : List Char) : Option Nat :=
  match digitsVal cs 0 with
  | some v => if v < 2 ^ 256 then some v else none
  | none => none

/-- Model of `I256::from_dec_str`: an optional leading minus sign, then digits;
range `[-(2^255), 2^255 - 1]`. -/
def fromDecStrI256 (cs : List Char) : Option Int :=
  match cs with
  | '-' :: rest =>
    match digitsVal rest 0 with
    | some v => if v ≤ 2 ^ 255 then some (-(v : Int)) else none
    | none => none
  | _ =>
    match digitsVal cs 0 with
    | some v => if v < 2 ^ 255 then some (v : Int) else none
    | none => none

/-- Split a character list at the first `'.'`: returns the characters
before and after it, or `none` when there is no dot.  Models the
`find('.')` / `remove(di)` pair in `ethers::utils::parse_units`. -/
def splitAtDot : List Char → Option (List Char × List Char)
  | [] => none
  | c :: cs =>
    if c = '.' then some ([], cs)
    else
      match splitAtDot cs with
      | some (a, b) => some (c :: a, b)
      | none => none

/-- Model of `I256::into_raw`: the two's-complement 256-bit pattern of an integer. -/
def intoRawU256 (n : Int) : Nat :=
  (n % (2 ^ 256 : Int)).toNat

/-- Model of `ethers::utils::parse_units(amount, 18)` followed by the
`ParseUnits -> U256` conversion used at `amount_in: amount_in.into()`:
underscores are stripped, a leading `-` marks a negative number (routed
through `I256` and converted by `into_raw`), the first `.` is removed and
the digits after it count as decimals; more than 18 decimals are
truncated, fewer are scaled up by a power of ten.  `none` models both the
`Err` returns and the (out-of-range) multiplication panic of the library;
either aborts configuration loading. -/
def parseUnits18 (s : String) : Option Nat :=
  let cs := s.data.filter (fun c => c ≠ '_')
  let negative : Bool := cs.head? = some '-'
  let bodyDec : List Char × Nat :=
    match splitAtDot cs with
    | some (before, after) => (before ++ after, after.length)
    | none => (cs, 0)
  let body := bodyDec.1
  let dec_len := bodyDec.2
  if dec_len > 18 then
    let truncated := body.take (body.length - (dec_len - 18))
    if negative then
      match fromDecStrI256 truncated with
      | some n => some (intoRawU256 n)
      | none => none
    else fromDecStrU256 truncated
  else
    if negative then
      match fromDecStrI256 body with
      | some n =>
        let scaled := n * (10 ^ (18 - dec_len) : Nat)
        if -(2 ^ 255 : Int) ≤ scaled ∧ scaled < 2 ^ 255 then
          some (intoRawU256 scaled)
        else none
      | none => none
    else
      match fromDecStrU256 body with
      | some v =>
        if v * 10 ^ (18 - dec_len) < 2 ^ 256 then
          some (v * 10 ^ (18 - dec_len))
        else none
      | none => none

/-- Hexadecimal digit test. -/
def isHexDigit (c : Char) : Bool :=
  isDecDigit c || ('a' ≤ c && c ≤ 'f') || ('A' ≤ c && c ≤ 'F')

/-- Value of a hexadecimal digit. -/
def hexVal (c : Char) : Nat :=
  if isDecDigit c then decVal c
  else if 'a' ≤ c && c ≤ 'f' then c.toNat - 'a'.toNat + 10
  else c.toNat - 'A'.toNat + 10

/-- Accumulating hexadecimal parse. -/
def hexDigitsVal : List Char → Nat → Option Nat
  | [], acc => some acc
  | c :: cs, acc =>
    if isHexDigit c then hexDigitsVal cs (acc * 16 + hexVal c) else none

/-- Model of `str::parse::<Address>()` (`H160` via `fixed-hash`'s `FromStr`): an
optional `0x` prefix, then exactly 40 hexadecimal digits. -/
def parseAddress (s : String) : Option Nat :=
  let cs :=
    match s.data with
    | '0' :: 'x' :: rest => rest
    | l => l
  if cs.length = 40 then hexDigitsVal cs 0 else none

/-- Model of `str::parse::<u64>()`: an optional leading `+`, then a non-empty run
of decimal digits whose value fits in 64 bits. -/
def parseU64 (s : String) : Option Nat :=
  let cs :=
    match s.data with
    | '+' :: rest => rest
    | l => l
  match cs with
  | [] => none
  | _ =>
    match digitsVal cs 0 with
    | some v => if v < 2 ^ 64 then some v else none
    | none => none

/-- The process environment: one optional string per variable the script
reads (`dotenvy` merging is irrelevant to the claims; this is the merged
view `std::env::var` sees). -/
structure Env where
  RPC_URL : Option String
  PRIVATE_KEY : Option String
  TOKEN_ADDRESS : Option String
  AMOUNT_IN_MON : Option String
  RECIPIENT_ADDRESS : Option String
  SLIPPAGE_BPS : Option String
  DEADLINE_SECS : Option String
  SETTLEMENT_WAIT_SECS : Option String
deriving DecidableEq, Repr

/-- Model of `struct AppConfig` from `src/rust/src/main.rs` lines 108-117.
Addresses are 160-bit numbers, amounts 256-bit numbers, the second
group `u64`s; all are represented as `Nat` (their parsers enforce the
bounds). -/
structure AppConfig where
  rpc_url : String
  private_key : String
  token : Nat
  amount_in : Nat
  slippage_bps : Nat
  recipient : Option Nat
  deadline_secs_from_now : Nat
  settlement_wait_secs : Nat
deriving DecidableEq, Repr

/-- Model of `AppConfig::from_env` (lines 120-163).  Required variables error with
`"<NAME> missing"`; `AMOUNT_IN_MON` defaults to `"0.1"` and a parse
failure is the error `"invalid AMOUNT_IN_MON"`; an unparsable token
address is the error `"invalid token"`.  The optional fields use
`.ok().and_then(|v| v.parse().ok()).unwrap_or(default)` /
`.ok().and_then(|v| v.parse().ok())`, so their parse failures silently
fall back to the default (resp. `None`). -/
def AppConfig.from_env (e : Env) : Except String AppConfig :=
  match e.RPC_URL with
  | none => .error "RPC_URL missing"
  | some rpc_url =>
  match e.PRIVATE_KEY with
  | none => .error "PRIVATE_KEY missing"
  | some private_key =>
  match e.TOKEN_ADDRESS with
  | none => .error "TOKEN_ADDRESS missing"
  | some token_str =>
  match parseUnits18 (e.AMOUNT_IN_MON.getD "0.1") with
  | none => .error "invalid AMOUNT_IN_MON"
  | some amount_in =>
  match parseAddress token_str with
  | none => .error "invalid token"
  | some token =>
    .ok { rpc_url := rpc_url
          private_key := private_key
          token := token
          amount_in := amount_in
          slippage_bps := (e.SLIPPAGE_BPS.bind parseU64).getD 100
          recipient := e.RECIPIENT_ADDRESS.bind parseAddress
          deadline_secs_from_now := (e.DEADLINE_SECS.bind parseU64).getD 600
          settlement_wait_secs := (e.SETTLEMENT_WAIT_SECS.bind parseU64).getD 30 }

/-- Model of `AppConfig::deadline_u256` (lines 165-172): the unix time sampled at
the call (`now`, a `u64`) plus the configured offset.  The `u64` addition
wraps modulo `2 ^ 64` (release-profile semantics); for all realistic
timestamps the reduction is the identity. -/
def AppConfig.deadline_u256 (cfg : AppConfig) (now : Nat) : Nat :=
  (now + cfg.deadline_secs_from_now) % 2 ^ 64

/-- One externally visible call made by `main`, with the arguments the
script passes.  Addresses, amounts, routers, timestamps and hashes are
`Nat`s, mirroring the `U256`/`H160` values. -/
inductive Event where
  | initClient : Event
  | clockRead : Nat → Event
  | quote : (token amountIn : Nat) → (is_buy : Bool) → Event
  | estimateGas : (router token amountIn amountOutMin toAddr deadline : Nat) → Event
  | buy : (router token amountIn amountOutMin recipient deadline : Nat) → Event
  | sleep : (secs : Nat) → Event
  | initTokenHelper : Event
  | balanceOf : (token owner : Nat) → Event
  | sell : (router token amountIn amountOutMin recipient deadline : Nat) → Event
deriving DecidableEq, Repr

/-- The stage number of an event along the spec's state machine
`Start → ConfigLoaded → ClientInitialized → Quoted → GasEstimated →
Bought → Waited → BalanceChecked → {Sold | AbortedZeroBalance}`
(the clock read sits between client initialization and the quote). -/
def stage : Event → Nat
  | .initClient => 0
  | .clockRead _ => 1
  | .quote _ _ _ => 2
  | .estimateGas _ _ _ _ _ _ => 3
  | .buy _ _ _ _ _ _ => 4
  | .sleep _ => 5
  | .initTokenHelper => 6
  | .balanceOf _ _ => 7
  | .sell _ _ _ _ _ _ => 8

/-- Whether an event is the quote call. -/
def isQuoteEv : Event → Bool
  | .quote _ _ _ => true
  | _ => false

/-- Whether an event is the clock read. -/
def isClockReadEv : Event → Bool
  | .clockRead _ => true
  | _ => false

/-- The responses of every external collaborator, in the order `main`
consults them: `Trade::new`, the wallet address, the unix clock,
`get_amount_out`, `estimate_gas`, `buy`, `TokenHelper::new`,
`balance_of`, `sell`.  Each fallible call is an `Except`. -/
structure Oracle where
  tradeInit : Except String Unit
  walletAddress : Nat
  now : Nat
  quoteResult : Except String (Nat × Nat)
  gasResult : Except String Nat
  buyResult : Except String Nat
  helperInit : Except String Unit
  balanceResult : Except String Nat
  sellResult : Except String Nat
deriving Repr

/-- How the process ends: `Ok(())`, `Err(...)` with the rendered message,
or a panic (the `U256` arithmetic in `apply_slippage` is the only
panicking operation the claims touch). -/
inductive Outcome where
  | ok : Outcome
  | err : String → Outcome
  | panicked : Outcome
deriving DecidableEq, Repr

/-- Model of `async fn main()` (lines 11-106) as a pure function: given the
environment and the oracle of collaborator responses it returns the
process outcome and the list of external calls, in program order.
Every `match` mirrors a `?` / `.context(...)` propagation in the source;
the `if` mirrors the `balance.is_zero()` gate. -/
def runMain (env : Env) (o : Oracle) : Outcome × List Event :=
  match AppConfig.from_env env with
  | .error e => (.err e, [])
  | .ok cfg =>
  match o.tradeInit with
  | .error e =>
    (.err ("failed to initialize Trade client: " ++ e), [Event.initClient])
  | .ok _ =>
  let recipient := cfg.recipient.getD o.walletAddress
  let deadline := cfg.deadline_u256 o.now
  match o.quoteResult with
  | .error e =>
    (.err ("failed to query quote: " ++ e),
     [Event.initClient, Event.clockRead o.now,
      Event.quote cfg.token cfg.amount_in true])
  | .ok (router, quoted_out) =>
  match apply_slippage quoted_out cfg.slippage_bps with
  | none =>
    (.panicked,
     [Event.initClient, Event.clockRead o.now,
      Event.quote cfg.token cfg.amount_in true])
  | some amount_out_min =>
  match o.gasResult with
  | .error e =>
    (.err ("failed to estimate buy gas: " ++ e),
     [Event.initClient, Event.clockRead o.now,
      Event.quote cfg.token cfg.amount_in true,
      Event.estimateGas router cfg.token cfg.amount_in amount_out_min recipient deadline])
  | .ok _ =>
  match o.buyResult with
  | .error e =>
    (.err ("buy transaction failed: " ++ e),
     [Event.initClient, Event.clockRead o.now,
      Event.quote cfg.token cfg.amount_in true,
      Event.estimateGas router cfg.token cfg.amount_in amount_out_min recipient deadline,
      Event.buy router cfg.token cfg.amount_in amount_out_min recipient deadline])
  | .ok _ =>
  match o.helperInit with
  | .error e =>
    (.err e,
     [Event.initClient, Event.clockRead o.now,
      Event.quote cfg.token cfg.amount_in true,
      Event.estimateGas router cfg.token cfg.amount_in amount_out_min recipient deadline,
      Event.buy router cfg.token cfg.amount_in amount_out_min recipient deadline,
      Event.sleep cfg.settlement_wait_secs, Event.initTokenHelper])
  | .ok _ =>
  match o.balanceResult with
  | .error e =>
    (.err ("failed to fetch wallet balance: " ++ e),
     [Event.initClient, Event.clockRead o.now,
      Event.quote cfg.token cfg.amount_in true,
      Event.estimateGas router cfg.token cfg.amount_in amount_out_min recipient deadline,
      Event.buy router cfg.token cfg.amount_in amount_out_min recipient deadline,
      Event.sleep cfg.settlement_wait_secs, Event.initTokenHelper,
      Event.balanceOf cfg.token recipient])
  | .ok balance =>
  if balance = 0 then
    (.err "no balance available to sell",
     [Event.initClient, Event.clockRead o.now,
      Event.quote cfg.token cfg.amount_in true,
      Event.estimateGas router cfg.token cfg.amount_in amount_out_min recipient deadline,
      Event.buy router cfg.token cfg.amount_in amount_out_min recipient deadline,
      Event.sleep cfg.settlement_wait_secs, Event.initTokenHelper,
      Event.balanceOf cfg.token recipient])
  else
  match o.sellResult with
  | .error e =>
    (.err ("sell transaction failed: " ++ e),
     [Event.initClient, Event.clockRead o.now,
      Event.quote cfg.token cfg.amount_in true,
      Event.estimateGas router cfg.token cfg.amount_in amount_out_min recipient deadline,
      Event.buy router cfg.token cfg.amount_in amount_out_min recipient deadline,
      Event.sleep cfg.settlement_wait_secs, Event.initTokenHelper,
      Event.balanceOf cfg.token recipient,
      Event.sell router cfg.token balance 0 recipient deadline])
  | .ok _ =>
    (.ok,
     [Event.initClient, Event.clockRead o.now,
      Event.quote cfg.token cfg.amount_in true,
      Event.estimateGas router cfg.token cfg.amount_in amount_out_min recipient deadline,
      Event.buy router cfg.token cfg.amount_in amount_out_min recipient deadline,
      Event.sleep cfg.settlement_wait_secs, Event.initTokenHelper,
      Event.balanceOf cfg.token recipient,
      Event.sell router cfg.token balance 0 recipient deadline])

/-- The complete success trace determined by a configuration and an
oracle: the spec's state-machine path
`ClientInitialized → Quoted → GasEstimated → Bought → Waited →
BalanceChecked → Sold` (with the clock read between client
initialization and the quote).  Arguments of stages the run may not
reach are read through `Except.toOption`/`getD`; every actual trace of
`runMain` is a `take`-prefix of this list. -/
def fullT (cfg : AppConfig) (o : Oracle) : List Event :=
  let recipient := cfg.recipient.getD o.walletAddress
  let deadline := cfg.deadline_u256 o.now
  let rq := o.quoteResult.toOption.getD (0, 0)
  let m := (apply_slippage rq.2 cfg.slippage_bps).getD 0
  let b := o.balanceResult.toOption.getD 0
  [Event.initClient, Event.clockRead o.now,
   Event.quote cfg.token cfg.amount_in true,
   Event.estimateGas rq.1 cfg.token cfg.amount_in m recipient deadline,
   Event.buy rq.1 cfg.token cfg.amount_in m recipient deadline,
   Event.sleep cfg.settlement_wait_secs, Event.initTokenHelper,
   Event.balanceOf cfg.token recipient,
   Event.sell rq.1 cfg.token b 0 recipient deadline]

/-- A valid token address string (`0x` plus 40 hex digits). -/
def tokenStr : String := "0x00000000000000000000000000000000000000ab"

/-- A fully valid environment using every default. -/
def envOk : Env :=
  { RPC_URL := some "http://rpc"
    PRIVATE_KEY := some "0xkey"
    TOKEN_ADDRESS := some tokenStr
    AMOUNT_IN_MON := none
    RECIPIENT_ADDRESS := none
    SLIPPAGE_BPS := none
    DEADLINE_SECS := none
    SETTLEMENT_WAIT_SECS := none }

/-- The configuration `envOk` loads to. -/
def cfgOk : AppConfig :=
  { rpc_url := "http://rpc"
    private_key := "0xkey"
    token := 171
    amount_in := 100000000000000000
    slippage_bps := 100
    recipient := none
    deadline_secs_from_now := 600
    settlement_wait_secs := 30 }

/-- An oracle where every collaborator call succeeds and the post-buy
balance is non-zero. -/
def oracleOk : Oracle :=
  { tradeInit := .ok ()
    walletAddress := 555
    now := 1700000000
    quoteResult := .ok (7, 1000000)
    gasResult := .ok 21000
    buyResult := .ok 1
    helperInit := .ok ()
    balanceResult := .ok 990000
    sellResult := .ok 2 }

/-- Like `oracleOk`, but the post-buy balance query returns zero. -/
def oracleZeroBal : Oracle :=
  { oracleOk with balanceResult := .ok 0 }

/-- The empty environment (no variable set). -/
def envEmpty : Env :=
  { RPC_URL := none, PRIVATE_KEY := none, TOKEN_ADDRESS := none
    AMOUNT_IN_MON := none, RECIPIENT_ADDRESS := none, SLIPPAGE_BPS := none
    DEADLINE_SECS := none, SETTLEMENT_WAIT_SECS := none }

/-- Like `envOk` but with the private key removed. -/
def envNoPK : Env := { envOk with PRIVATE_KEY := none }

/-- Like `envOk` but with the token address removed. -/
def envNoToken : Env := { envOk with TOKEN_ADDRESS := none }

/-- Like `envOk` but with an unparsable amount. -/
def envBadAmount : Env := { envOk with AMOUNT_IN_MON := some "xyz" }

/-- Like `envOk` but with an unparsable token address. -/
def envBadToken : Env := { envOk with TOKEN_ADDRESS := some "zzz" }

/-- Like `envOk` but with an unparsable recipient address. -/
def envBadRecipient : Env := { envOk with RECIPIENT_ADDRESS := some "notanaddress" }

/-- Like `envOk` but with an unparsable slippage value. -/
def envBadSlip : Env := { envOk with SLIPPAGE_BPS := some "abc" }

/-- Like `envOk` but with an unparsable deadline offset. -/
def envBadDeadline : Env := { envOk with DEADLINE_SECS := some "10s" }

/-- Like `envOk` but with an unparsable settlement wait. -/
def envBadWait : Env := { envOk with SETTLEMENT_WAIT_SECS := some "-1" }

/-- Like `envOk` but with a slippage of 20000 bps, above the 10000 basis. -/
def envHighSlip : Env := { envOk with SLIPPAGE_BPS := some "20000" }

/-- The configuration `envHighSlip` loads to. -/
def cfgHighSlip : AppConfig := { cfgOk with slippage_bps := 20000 }

lemma from_env_ok_fields (env : Env) (cfg : AppConfig)
    (h : AppConfig.from_env env = .ok cfg) :
    cfg.recipient = env.RECIPIENT_ADDRESS.bind parseAddress ∧
    cfg.slippage_bps = (env.SLIPPAGE_BPS.bind parseU64).getD 100 ∧
    cfg.deadline_secs_from_now = (env.DEADLINE_SECS.bind parseU64).getD 600 ∧
    cfg.settlement_wait_secs = (env.SETTLEMENT_WAIT_SECS.bind parseU64).getD 30 := by
  unfold AppConfig.from_env at h
  repeat' split at h
  all_goals try exact Except.noConfusion h
  injection h with h
  subst h
  exact ⟨rfl, rfl, rfl, rfl⟩

lemma from_env_congr (e₁ e₂ : Env)
    (h1 : e₁.RPC_URL = e₂.RPC_URL) (h2 : e₁.PRIVATE_KEY = e₂.PRIVATE_KEY)
    (h3 : e₁.TOKEN_ADDRESS = e₂.TOKEN_ADDRESS)
    (h4 : e₁.AMOUNT_IN_MON = e₂.AMOUNT_IN_MON)
    (h5 : e₁.RECIPIENT_ADDRESS.bind parseAddress = e₂.RECIPIENT_ADDRESS.bind parseAddress)
    (h6 : e₁.SLIPPAGE_BPS.bind parseU64 = e₂.SLIPPAGE_BPS.bind parseU64)
    (h7 : e₁.DEADLINE_SECS.bind parseU64 = e₂.DEADLINE_SECS.bind parseU64)
    (h8 : e₁.SETTLEMENT_WAIT_SECS.bind parseU64 = e₂.SETTLEMENT_WAIT_SECS.bind parseU64) :
    AppConfig.from_env e₁ = AppConfig.from_env e₂ := by
  unfold AppConfig.from_env
  rw [h1, h2, h3, h4, h5, h6, h7, h8]

lemma runMain_take (env : Env) (o : Oracle) :
    (∃ e, AppConfig.from_env env = .error e ∧ runMain env o = (.err e, [])) ∨
    ∃ cfg k, AppConfig.from_env env = .ok cfg ∧ 1 ≤ k ∧ k ≤ 9 ∧
      (o.tradeInit = .ok () → 3 ≤ k) ∧
      (9 ≤ k → ∃ router quoted b, o.quoteResult = .ok (router, quoted) ∧
         o.balanceResult = .ok b ∧ b ≠ 0) ∧
      (runMain env o).2 = (fullT cfg o).take k ∧
      (∀ r t a mo rec d, Event.sell r t a mo rec d ∈ (runMain env o).2 →
         9 ≤ k) := by
  cases hc : AppConfig.from_env env with
  | error e => exact Or.inl ⟨e, rfl, by simp [runMain, hc]⟩
  | ok cfg =>
  cases ht : o.tradeInit with
  | error e =>
    refine Or.inr ⟨cfg, 1, rfl, by norm_num, by norm_num, ?_, ?_, ?_, ?_⟩
    · intro h; exact Except.noConfusion h
    · intro h; exact absurd h (by norm_num)
    · simp [runMain, hc, ht, fullT]
    · intro r t a mo rec d hmem
      simp [runMain, hc, ht] at hmem
  | ok u =>
  cases hq : o.quoteResult with
  | error e =>
    refine Or.inr ⟨cfg, 3, rfl, by norm_num, by norm_num, fun _ => by norm_num,
      ?_, ?_, ?_⟩
    · intro h; exact absurd h (by norm_num)
    · simp [runMain, hc, ht, hq, fullT]
    · intro r t a mo rec d hmem
      simp [runMain, hc, ht, hq] at hmem
  | ok rq =>
  obtain ⟨router, quoted⟩ := rq
  cases hm : apply_slippage quoted cfg.slippage_bps with
  | none =>
    refine Or.inr ⟨cfg, 3, rfl, by norm_num, by norm_num, fun _ => by norm_num,
      ?_, ?_, ?_⟩
    · intro h; exact absurd h (by norm_num)
    · simp [runMain, hc, ht, hq, hm, fullT]
    · intro r t a mo rec d hmem
      simp [runMain, hc, ht, hq, hm] at hmem
  | some m =>
  cases hg : o.gasResult with
  | error e =>
    refine Or.inr ⟨cfg, 4, rfl, by norm_num, by norm_num, fun _ => by norm_num,
      ?_, ?_, ?_⟩
    · intro h; exact absurd h (by norm_num)
    · simp [runMain, hc, ht, hq, hm, hg, fullT, Except.toOption]
    · intro r t a mo rec d hmem
      simp [runMain, hc, ht, hq, hm, hg] at hmem
  | ok g =>
  cases hb : o.buyResult with
  | error e =>
    refine Or.inr ⟨cfg, 5, rfl, by norm_num, by norm_num, fun _ => by norm_num,
      ?_, ?_, ?_⟩
    · intro h; exact absurd h (by norm_num)
    · simp [runMain, hc, ht, hq, hm, hg, hb, fullT, Except.toOption]
    · intro r t a mo rec d hmem
      simp [runMain, hc, ht, hq, hm, hg, hb] at hmem
  | ok tx =>
  cases hh : o.helperInit with
  | error e =>
    refine Or.inr ⟨cfg, 7, rfl, by norm_num, by norm_num, fun _ => by norm_num,
      ?_, ?_, ?_⟩
    · intro h; exact absurd h (by norm_num)
    · simp [runMain, hc, ht, hq, hm, hg, hb, hh, fullT, Except.toOption]
    · intro r t a mo rec d hmem
      simp [runMain, hc, ht, hq, hm, hg, hb, hh] at hmem
  | ok v =>
  cases hbal : o.balanceResult with
  | error e =>
    refine Or.inr ⟨cfg, 8, rfl, by norm_num, by norm_num, fun _ => by norm_num,
      ?_, ?_, ?_⟩
    · intro h; exact absurd h (by norm_num)
    · simp [runMain, hc, ht, hq, hm, hg, hb, hh, hbal, fullT, Except.toOption]
    · intro r t a mo rec d hmem
      simp [runMain, hc, ht, hq, hm, hg, hb, hh, hbal] at hmem
  | ok b =>
  by_cases hb0 : b = 0
  · refine Or.inr ⟨cfg, 8, rfl, by norm_num, by norm_num, fun _ => by norm_num,
      ?_, ?_, ?_⟩
    · intro h; exact absurd h (by norm_num)
    · simp [runMain, hc, ht, hq, hm, hg, hb, hh, hbal, hb0, fullT,
        Except.toOption]
    · intro r t a mo rec d hmem
      simp [runMain, hc, ht, hq, hm, hg, hb, hh, hbal, hb0] at hmem
  · cases hs : o.sellResult with
    | error e =>
      refine Or.inr ⟨cfg, 9, rfl, by norm_num, by norm_num, fun _ => by norm_num,
        fun _ => ⟨router, quoted, b, rfl, rfl, hb0⟩, ?_,
        fun _ _ _ _ _ _ _ => le_refl 9⟩
      simp [runMain, hc, ht, hq, hm, hg, hb, hh, hbal, hb0, hs, fullT,
        Except.toOption]
    | ok w =>
      refine Or.inr ⟨cfg, 9, rfl, by norm_num, by norm_num, fun _ => by norm_num,
        fun _ => ⟨router, quoted, b, rfl, rfl, hb0⟩, ?_,
        fun _ _ _ _ _ _ _ => le_refl 9⟩
      simp [runMain, hc, ht, hq, hm, hg, hb, hh, hbal, hb0, hs, fullT,
        Except.toOption]

lemma from_env_ok_inv (env : Env) (cfg : AppConfig)
    (h : AppConfig.from_env env = .ok cfg) :
    (∃ r, env.RPC_URL = some r ∧ cfg.rpc_url = r) ∧
    (∃ k, env.PRIVATE_KEY = some k ∧ cfg.private_key = k) ∧
    (∃ ts, env.TOKEN_ADDRESS = some ts ∧ parseAddress ts = some cfg.token) ∧
    parseUnits18 (env.AMOUNT_IN_MON.getD "0.1") = some cfg.amount_in := by
  unfold AppConfig.from_env at h
  repeat' split at h
  all_goals try exact Except.noConfusion h
  injection h with h
  subst h
  rename_i x4 r hr x3 k hk x2 ts ht x1 a ha x0 tk htk
  exact ⟨⟨r, hr, rfl⟩, ⟨k, hk, rfl⟩, ⟨ts, ht, htk⟩, ha⟩

lemma apply_slippage_eq (Q S : Nat) :
    apply_slippage Q S =
      if S ≤ 10000 then
        (if Q * (10000 - S) < 2 ^ 256 then some (Q * (10000 - S) / 10000) else none)
      else none := by
  unfold apply_slippage u256_sub u256_mul
  by_cases h1 : S ≤ 10000
  · by_cases h2 : Q * (10000 - S) < 2 ^ 256
    · simp only [if_pos h1, if_pos h2, Option.some_bind, Option.map_some']
    · simp only [if_pos h1, if_neg h2, Option.some_bind, Option.map_none']
  · simp only [if_neg h1, Option.none_bind]

/-- C1 (amended): for every quoted amount `Q` and slippage `S ≤ 10000`
such that `Q * (10000 - S)` fits in 256 bits, `apply_slippage` returns
exactly `floor (Q * (10000 - S) / 10000)`; in particular `S = 0` returns
`Q` and `S = 10000` returns `0`.  (The overflow proviso is forced by
`claim_C1_counterexample`: the `U256` multiplication panics above it.) -/
theorem claim_C1 (Q S : Nat) (hS : S ≤ 10000) (hov : Q * (10000 - S) < 2 ^ 256) :
    apply_slippage Q S = some (Q * (10000 - S) / 10000) ∧
    (S = 0 → apply_slippage Q S = some Q) ∧
    (S = 10000 → apply_slippage Q S = some 0) := by
  have h1 : apply_slippage Q S = some (Q * (10000 - S) / 10000) := by
    rw [apply_slippage_eq, if_pos hS, if_pos hov]
  refine ⟨h1, fun h0 => ?_, fun h10 => ?_⟩
  · subst h0
    rw [h1]
    norm_num
  · subst h10
    rw [h1]
    norm_num

/-- C1 counterexample: at `Q = 2 ^ 256 - 1`, `S = 0` (both within the
claim's stated range) the computation does not return
`floor (Q * 10000 / 10000) = Q`: the 256-bit multiplication overflows
and the program panics (modelled by `none`). -/
theorem claim_C1_counterexample :
    apply_slippage (2 ^ 256 - 1) 0 = none ∧
    apply_slippage (2 ^ 256 - 1) 0 ≠ some (2 ^ 256 - 1) := by
  have h : apply_slippage (2 ^ 256 - 1) 0 = none := by
    rw [apply_slippage_eq, if_pos (by norm_num : (0 : Nat) ≤ 10000),
      if_neg (by norm_num)]
  exact ⟨h, by rw [h]; exact fun hx => Option.noConfusion hx⟩

/-- C1 witness: the spec's own example, `Q = 1,000,000`, `S = 100`
(1 %) gives `990,000`. -/
theorem claim_C1_witness : apply_slippage 1000000 100 = some 990000 :=
  ((claim_C1 1000000 100 (by norm_num) (by norm_num)).1).trans (by norm_num)

/-- C9: the slippage computation is partial outside the stated range:
for any `u64` slippage above 10000 the `U256` subtraction underflows and
panics (`none`); the configuration loader puts any parsed `u64` value of
`SLIPPAGE_BPS` into the configuration without bounding it by 10000; and
when `Q * (10000 - S)` does not fit in 256 bits the multiplication
overflows (panics) instead of returning the mathematical floor. -/
theorem claim_C9 :
    (∀ Q S, 10000 < S → S < 2 ^ 64 → apply_slippage Q S = none) ∧
    (∀ env cfg s v, AppConfig.from_env env = .ok cfg →
       env.SLIPPAGE_BPS = some s → parseU64 s = some v → cfg.slippage_bps = v) ∧
    (∀ Q S, S ≤ 10000 → 2 ^ 256 ≤ Q * (10000 - S) → apply_slippage Q S = none) := by
  refine ⟨fun Q S hS _ => ?_, fun env cfg s v hok hs hv => ?_, fun Q S hS hov => ?_⟩
  · rw [apply_slippage_eq, if_neg (not_le.mpr hS)]
  · have hf := (from_env_ok_fields env cfg hok).2.1
    rw [hs] at hf
    simp only [Option.some_bind, hv, Option.getD_some] at hf
    exact hf
  · rw [apply_slippage_eq, if_pos hS, if_neg (not_lt.mpr hov)]

/-- C9 witness: slippage 10001 panics on `Q = 0`; `SLIPPAGE_BPS=20000`
loads unbounded into the configuration; `Q = 2 ^ 255`, `S = 5000`
overflows the multiplication. -/
theorem claim_C9_witness :
    apply_slippage 0 10001 = none ∧
    cfgHighSlip.slippage_bps = 20000 ∧
    apply_slippage (2 ^ 255) 5000 = none :=
  ⟨claim_C9.1 0 10001 (by norm_num) (by norm_num),
   claim_C9.2.1 envHighSlip cfgHighSlip "20000" 20000 rfl rfl rfl,
   claim_C9.2.2 (2 ^ 255) 5000 (by norm_num) (by norm_num)⟩

/-- C4 (amended): a parse failure is fatal only for `AMOUNT_IN_MON` and
`TOKEN_ADDRESS`; when `RECIPIENT_ADDRESS`, `SLIPPAGE_BPS`,
`DEADLINE_SECS` or `SETTLEMENT_WAIT_SECS` is set but unparsable,
configuration loading behaves exactly as if the variable were unset
(the default is silently substituted), because the loader uses
`.ok().and_then(|v| v.parse().ok())` on those fields. -/
theorem claim_C4 :
    (∀ env s, env.AMOUNT_IN_MON = some s → parseUnits18 s = none →
       (AppConfig.from_env env).toOption = none) ∧
    (∀ env t, env.TOKEN_ADDRESS = some t → parseAddress t = none →
       (AppConfig.from_env env).toOption = none) ∧
    (∀ env r, env.RECIPIENT_ADDRESS = some r → parseAddress r = none →
       AppConfig.from_env env =
         AppConfig.from_env { env with RECIPIENT_ADDRESS := none }) ∧
    (∀ env s, env.SLIPPAGE_BPS = some s → parseU64 s = none →
       AppConfig.from_env env =
         AppConfig.from_env { env with SLIPPAGE_BPS := none }) ∧
    (∀ env s, env.DEADLINE_SECS = some s → parseU64 s = none →
       AppConfig.from_env env =
         AppConfig.from_env { env with DEADLINE_SECS := none }) ∧
    (∀ env s, env.SETTLEMENT_WAIT_SECS = some s → parseU64 s = none →
       AppConfig.from_env env =
         AppConfig.from_env { env with SETTLEMENT_WAIT_SECS := none }) := by
  refine ⟨fun env s hA hP => ?_, fun env t hT hP => ?_, fun env r hR hP => ?_,
    fun env s hS hP => ?_, fun env s hD hP => ?_, fun env s hW hP => ?_⟩
  · cases hok : AppConfig.from_env env with
    | error e => rfl
    | ok cfg =>
      exfalso
      have hamt := (from_env_ok_inv env cfg hok).2.2.2
      rw [hA] at hamt
      simp only [Option.getD_some] at hamt
      rw [hP] at hamt
      exact Option.noConfusion hamt
  · cases hok : AppConfig.from_env env with
    | error e => rfl
    | ok cfg =>
      exfalso
      obtain ⟨ts, hts, htk⟩ := (from_env_ok_inv env cfg hok).2.2.1
      rw [hT] at hts
      injection hts with hts
      subst hts
      rw [hP] at htk
      exact Option.noConfusion htk
  · exact from_env_congr env { env with RECIPIENT_ADDRESS := none }
      rfl rfl rfl rfl (by rw [hR]; simp [hP]) rfl rfl rfl
  · exact from_env_congr env { env with SLIPPAGE_BPS := none }
      rfl rfl rfl rfl rfl (by rw [hS]; simp [hP]) rfl rfl
  · exact from_env_congr env { env with DEADLINE_SECS := none }
      rfl rfl rfl rfl rfl rfl (by rw [hD]; simp [hP]) rfl
  · exact from_env_congr env { env with SETTLEMENT_WAIT_SECS := none }
      rfl rfl rfl rfl rfl rfl rfl (by rw [hW]; simp [hP])

/-- C4 counterexample: `envBadRecipient` sets `RECIPIENT_ADDRESS` to the
unparsable string `"notanaddress"`, yet configuration loading succeeds
(with the recipient silently unset), contradicting the claim that a
parse failure on `RECIPIENT_ADDRESS` is a fatal startup error. -/
theorem claim_C4_counterexample :
    AppConfig.from_env envBadRecipient = .ok cfgOk ∧
    parseAddress "notanaddress" = none :=
  ⟨rfl, rfl⟩

/-- C4 witness: each amended conjunct applied at a concrete environment. -/
theorem claim_C4_witness :
    (AppConfig.from_env envBadAmount).toOption = none ∧
    (AppConfig.from_env envBadToken).toOption = none ∧
    AppConfig.from_env envBadRecipient =
      AppConfig.from_env { envBadRecipient with RECIPIENT_ADDRESS := none } ∧
    AppConfig.from_env envBadSlip =
      AppConfig.from_env { envBadSlip with SLIPPAGE_BPS := none } ∧
    AppConfig.from_env envBadDeadline =
      AppConfig.from_env { envBadDeadline with DEADLINE_SECS := none } ∧
    AppConfig.from_env envBadWait =
      AppConfig.from_env { envBadWait with SETTLEMENT_WAIT_SECS := none } :=
  ⟨claim_C4.1 envBadAmount "xyz" rfl rfl,
   claim_C4.2.1 envBadToken "zzz" rfl rfl,
   claim_C4.2.2.1 envBadRecipient "notanaddress" rfl rfl,
   claim_C4.2.2.2.1 envBadSlip "abc" rfl rfl,
   claim_C4.2.2.2.2.1 envBadDeadline "10s" rfl rfl,
   claim_C4.2.2.2.2.2 envBadWait "-1" rfl rfl⟩

/-- C7: when a required variable (`RPC_URL`, `PRIVATE_KEY`,
`TOKEN_ADDRESS`) is absent, configuration loading fails with the error
naming that variable, the process ends in that error, and the trace is
empty: no client is constructed and no network call is attempted. -/
theorem claim_C7 (env : Env) (o : Oracle) :
    (env.RPC_URL = none →
       AppConfig.from_env env = .error "RPC_URL missing" ∧
       runMain env o = (.err "RPC_URL missing", [])) ∧
    (∀ r, env.RPC_URL = some r → env.PRIVATE_KEY = none →
       AppConfig.from_env env = .error "PRIVATE_KEY missing" ∧
       runMain env o = (.err "PRIVATE_KEY missing", [])) ∧
    (∀ r k, env.RPC_URL = some r → env.PRIVATE_KEY = some k →
       env.TOKEN_ADDRESS = none →
       AppConfig.from_env env = .error "TOKEN_ADDRESS missing" ∧
       runMain env o = (.err "TOKEN_ADDRESS missing", [])) := by
  refine ⟨fun h => ?_, fun r h1 h2 => ?_, fun r k h1 h2 h3 => ?_⟩
  · have hfe : AppConfig.from_env env = .error "RPC_URL missing" := by
      unfold AppConfig.from_env; rw [h]
    exact ⟨hfe, by simp [runMain, hfe]⟩
  · have hfe : AppConfig.from_env env = .error "PRIVATE_KEY missing" := by
      unfold AppConfig.from_env; rw [h1, h2]
    exact ⟨hfe, by simp [runMain, hfe]⟩
  · have hfe : AppConfig.from_env env = .error "TOKEN_ADDRESS missing" := by
      unfold AppConfig.from_env; rw [h1, h2, h3]
    exact ⟨hfe, by simp [runMain, hfe]⟩

/-- C7 witness: the three missing-variable scenarios at concrete
environments, each ending in the named error with an empty trace. -/
theorem claim_C7_witness :
    runMain envEmpty oracleOk = (.err "RPC_URL missing", []) ∧
    runMain envNoPK oracleOk = (.err "PRIVATE_KEY missing", []) ∧
    runMain envNoToken oracleOk = (.err "TOKEN_ADDRESS missing", []) :=
  ⟨((claim_C7 envEmpty oracleOk).1 rfl).2,
   ((claim_C7 envNoPK oracleOk).2.1 "http://rpc" rfl rfl).2,
   ((claim_C7 envNoToken oracleOk).2.2 "http://rpc" "0xkey" rfl rfl rfl).2⟩

/-- C8: when `RECIPIENT_ADDRESS` is unset the loaded configuration has
no recipient, and every buy, balance query and sell the run performs
uses the signer's derived wallet address as the recipient/owner. -/
theorem claim_C8 (env : Env) (o : Oracle) (cfg : AppConfig)
    (hrec : env.RECIPIENT_ADDRESS = none)
    (hcfg : AppConfig.from_env env = .ok cfg) :
    cfg.recipient = none ∧
    (∀ r t a m rec d, Event.buy r t a m rec d ∈ (runMain env o).2 →
       rec = o.walletAddress) ∧
    (∀ t ow, Event.balanceOf t ow ∈ (runMain env o).2 → ow = o.walletAddress) ∧
    (∀ r t a mo rec d, Event.sell r t a mo rec d ∈ (runMain env o).2 →
       rec = o.walletAddress) := by
  have hrecn : cfg.recipient = none := by
    rw [(from_env_ok_fields env cfg hcfg).1, hrec]
    rfl
  have hgetD : cfg.recipient.getD o.walletAddress = o.walletAddress := by
    rw [hrecn]
    rfl
  rcases runMain_take env o with ⟨e, hc, hr⟩ | ⟨cfg2, k, hc, -, -, -, -, htr, -⟩
  · rw [hcfg] at hc
    exact absurd hc (by simp)
  · rw [hcfg] at hc
    injection hc with hc
    subst hc
    refine ⟨hrecn, ?_, ?_, ?_⟩
    · intro r t a m rec d hm
      have hm2 : Event.buy r t a m rec d ∈ fullT cfg o :=
        List.take_subset _ _ (htr ▸ hm)
      simp only [fullT, List.mem_cons, List.not_mem_nil, or_false] at hm2
      rcases hm2 with h|h|h|h|h|h|h|h|h <;> simp at h
      exact h.2.2.2.2.1.trans hgetD
    · intro t ow hm
      have hm2 : Event.balanceOf t ow ∈ fullT cfg o :=
        List.take_subset _ _ (htr ▸ hm)
      simp only [fullT, List.mem_cons, List.not_mem_nil, or_false] at hm2
      rcases hm2 with h|h|h|h|h|h|h|h|h <;> simp at h
      exact h.2.trans hgetD
    · intro r t a mo rec d hm
      have hm2 : Event.sell r t a mo rec d ∈ fullT cfg o :=
        List.take_subset _ _ (htr ▸ hm)
      simp only [fullT, List.mem_cons, List.not_mem_nil, or_false] at hm2
      rcases hm2 with h|h|h|h|h|h|h|h|h <;> simp at h
      exact h.2.2.2.2.1.trans hgetD

/-- C8 witness: with `envOk` (recipient unset) and `oracleOk` (wallet
address 555), the recipient is unset in the configuration and the sell
event's recipient is the wallet address. -/
theorem claim_C8_witness :
    cfgOk.recipient = none ∧ (555 : Nat) = oracleOk.walletAddress := by
  have h := claim_C8 envOk oracleOk cfgOk rfl rfl
  exact ⟨h.1, h.2.2.2 7 171 990000 0 555 1700000600 (by decide)⟩

/-- C5: the transaction deadline is sampled from the clock exactly once,
immediately after client initialization and before the quote; the same
value `(now + deadline_secs_from_now) mod 2^64` is the deadline argument
of every gas estimation, buy and sell the run performs; and the offset
defaults to 600 seconds when `DEADLINE_SECS` is unset. -/
theorem claim_C5 (env : Env) (o : Oracle) (cfg : AppConfig)
    (hcfg : AppConfig.from_env env = .ok cfg) (ht : o.tradeInit = .ok ()) :
    (runMain env o).2.take 2 = [Event.initClient, Event.clockRead o.now] ∧
    (runMain env o).2.countP isClockReadEv = 1 ∧
    (∀ r t a m rec d, Event.estimateGas r t a m rec d ∈ (runMain env o).2 →
       d = cfg.deadline_u256 o.now) ∧
    (∀ r t a m rec d, Event.buy r t a m rec d ∈ (runMain env o).2 →
       d = cfg.deadline_u256 o.now) ∧
    (∀ r t a mo rec d, Event.sell r t a mo rec d ∈ (runMain env o).2 →
       d = cfg.deadline_u256 o.now) ∧
    (env.DEADLINE_SECS = none → cfg.deadline_secs_from_now = 600) := by
  have hf := from_env_ok_fields env cfg hcfg
  rcases runMain_take env o with ⟨e, hc, hr⟩ | ⟨cfg2, k, hc, hk1, hk9, hk3, hs9, htr, -⟩
  · rw [hcfg] at hc
    exact absurd hc (by simp)
  · rw [hcfg] at hc
    injection hc with hc
    subst hc
    have h3 := hk3 ht
    refine ⟨?_, ?_, ?_, ?_, ?_, fun h600 => by rw [hf.2.2.1, h600]; rfl⟩
    · rw [htr, List.take_take, min_eq_left (by omega : 2 ≤ k)]
      rfl
    · rw [htr]
      interval_cases k <;>
        simp [fullT, isClockReadEv, List.countP_cons, List.countP_nil]
    · intro r t a m rec d hm
      have hm2 : Event.estimateGas r t a m rec d ∈ fullT cfg o :=
        List.take_subset _ _ (htr ▸ hm)
      simp only [fullT, List.mem_cons, List.not_mem_nil, or_false] at hm2
      rcases hm2 with h|h|h|h|h|h|h|h|h <;> simp at h
      exact h.2.2.2.2.2
    · intro r t a m rec d hm
      have hm2 : Event.buy r t a m rec d ∈ fullT cfg o :=
        List.take_subset _ _ (htr ▸ hm)
      simp only [fullT, List.mem_cons, List.not_mem_nil, or_false] at hm2
      rcases hm2 with h|h|h|h|h|h|h|h|h <;> simp at h
      exact h.2.2.2.2.2
    · intro r t a mo rec d hm
      have hm2 : Event.sell r t a mo rec d ∈ fullT cfg o :=
        List.take_subset _ _ (htr ▸ hm)
      simp only [fullT, List.mem_cons, List.not_mem_nil, or_false] at hm2
      rcases hm2 with h|h|h|h|h|h|h|h|h <;> simp at h
      exact h.2.2.2.2.2

/-- C5 witness: at the concrete run the first two events are client
initialization and the clock read, the clock is read once, the buy's
deadline is `1700000000 + 600`, and the offset defaulted to 600. -/
theorem claim_C5_witness :
    (runMain envOk oracleOk).2.take 2 =
      [Event.initClient, Event.clockRead oracleOk.now] ∧
    (runMain envOk oracleOk).2.countP isClockReadEv = 1 ∧
    (1700000600 : Nat) = cfgOk.deadline_u256 oracleOk.now ∧
    cfgOk.deadline_secs_from_now = 600 := by
  have h := claim_C5 envOk oracleOk cfgOk rfl rfl
  exact ⟨h.1, h.2.1,
    h.2.2.2.1 7 171 100000000000000000 990000 555 1700000600 (by decide),
    h.2.2.2.2.2 rfl⟩

/-- C2: when every stage up to the balance query succeeds and the
queried balance `b` is non-zero, the run submits a sell whose
`amount_in` is exactly `b` and whose `amount_out_min` is zero; moreover
every sell event of the run has that shape. -/
theorem claim_C2 (env : Env) (o : Oracle) (cfg : AppConfig)
    (router quoted m g tx b : Nat)
    (hcfg : AppConfig.from_env env = .ok cfg)
    (ht : o.tradeInit = .ok ())
    (hq : o.quoteResult = .ok (router, quoted))
    (hm : apply_slippage quoted cfg.slippage_bps = some m)
    (hg : o.gasResult = .ok g)
    (hb : o.buyResult = .ok tx)
    (hh : o.helperInit = .ok ())
    (hbal : o.balanceResult = .ok b)
    (hb0 : b ≠ 0) :
    Event.sell router cfg.token b 0 (cfg.recipient.getD o.walletAddress)
      (cfg.deadline_u256 o.now) ∈ (runMain env o).2 ∧
    (∀ r t a mo rec d, Event.sell r t a mo rec d ∈ (runMain env o).2 →
       a = b ∧ mo = 0) := by
  cases hs : o.sellResult with
  | error e =>
    constructor
    · simp [runMain, hcfg, ht, hq, hm, hg, hb, hh, hbal, hb0, hs]
    · intro r t a mo rec d hm2
      simp [runMain, hcfg, ht, hq, hm, hg, hb, hh, hbal, hb0, hs] at hm2
      exact ⟨hm2.2.2.1, hm2.2.2.2.1⟩
  | ok w =>
    constructor
    · simp [runMain, hcfg, ht, hq, hm, hg, hb, hh, hbal, hb0, hs]
    · intro r t a mo rec d hm2
      simp [runMain, hcfg, ht, hq, hm, hg, hb, hh, hbal, hb0, hs] at hm2
      exact ⟨hm2.2.2.1, hm2.2.2.2.1⟩

/-- C2 witness: the concrete successful run sells the full queried
balance 990000 with zero minimum output. -/
theorem claim_C2_witness :
    Event.sell 7 cfgOk.token 990000 0
      (cfgOk.recipient.getD oracleOk.walletAddress)
      (cfgOk.deadline_u256 oracleOk.now) ∈ (runMain envOk oracleOk).2 :=
  (claim_C2 envOk oracleOk cfgOk 7 1000000 990000 21000 1 990000
    rfl rfl rfl rfl rfl rfl rfl rfl (by norm_num)).1

/-- C3: when the balance query returns zero the run ends in the error
`"no balance available to sell"` and performs no sell call; in general,
under the same preceding stages, a sell call occurs precisely when the
queried balance is non-zero. -/
theorem claim_C3 (env : Env) (o : Oracle) (cfg : AppConfig)
    (router quoted m g tx b : Nat)
    (hcfg : AppConfig.from_env env = .ok cfg)
    (ht : o.tradeInit = .ok ())
    (hq : o.quoteResult = .ok (router, quoted))
    (hm : apply_slippage quoted cfg.slippage_bps = some m)
    (hg : o.gasResult = .ok g)
    (hb : o.buyResult = .ok tx)
    (hh : o.helperInit = .ok ())
    (hbal : o.balanceResult = .ok b) :
    (b = 0 → (runMain env o).1 = .err "no balance available to sell" ∧
       ∀ r t a mo rec d, Event.sell r t a mo rec d ∉ (runMain env o).2) ∧
    ((∃ r t a mo rec d, Event.sell r t a mo rec d ∈ (runMain env o).2) ↔
       b ≠ 0) := by
  by_cases hb0 : b = 0
  · subst hb0
    refine ⟨fun _ => ⟨?_, ?_⟩, ?_⟩
    · simp [runMain, hcfg, ht, hq, hm, hg, hb, hh, hbal]
    · intro r t a mo rec d
      simp [runMain, hcfg, ht, hq, hm, hg, hb, hh, hbal]
    · constructor
      · rintro ⟨r, t, a, mo, rec, d, hmem⟩
        simp [runMain, hcfg, ht, hq, hm, hg, hb, hh, hbal] at hmem
      · intro hne
        exact absurd rfl hne
  · refine ⟨fun h0 => absurd h0 hb0, ?_⟩
    constructor
    · intro _
      exact hb0
    · intro _
      cases hs : o.sellResult with
      | error e =>
        exact ⟨router, cfg.token, b, 0, cfg.recipient.getD o.walletAddress,
          cfg.deadline_u256 o.now,
          by simp [runMain, hcfg, ht, hq, hm, hg, hb, hh, hbal, hb0, hs]⟩
      | ok w =>
        exact ⟨router, cfg.token, b, 0, cfg.recipient.getD o.walletAddress,
          cfg.deadline_u256 o.now,
          by simp [runMain, hcfg, ht, hq, hm, hg, hb, hh, hbal, hb0, hs]⟩

/-- C3 witness: with a zero post-buy balance the concrete run ends in
the zero-balance error, and no sell event with the run's parameters is
in its trace. -/
theorem claim_C3_witness :
    (runMain envOk oracleZeroBal).1 = .err "no balance available to sell" ∧
    Event.sell 7 cfgOk.token 0 0 555 1700000600 ∉
      (runMain envOk oracleZeroBal).2 := by
  have h := (claim_C3 envOk oracleZeroBal cfgOk 7 1000000 990000 21000 1 0
    rfl rfl rfl rfl rfl rfl rfl rfl).1 rfl
  exact ⟨h.1, h.2 7 cfgOk.token 0 0 555 1700000600⟩

lemma isQuoteEv_stage {ev : Event} (h : isQuoteEv ev = true) : stage ev = 2 := by
  cases ev <;> simp_all [isQuoteEv, stage]

/-- C6: every run's events, mapped to their stage numbers, form a prefix
of the single machine path
`[initClient, clockRead, quote, estimateGas, buy, sleep,
initTokenHelper, balanceOf, sell]` (numbered 0-8); the stages are
strictly increasing and none repeats, so every stage runs at most once,
in that order, the sell never precedes the buy, and a failure stops the
run at the failing stage (the trace simply ends there). -/
theorem claim_C6 (env : Env) (o : Oracle) :
    ((runMain env o).2.map stage) <+: [0, 1, 2, 3, 4, 5, 6, 7, 8] ∧
    ((runMain env o).2.map stage).Sorted (· < ·) ∧
    ((runMain env o).2.map stage).Nodup := by
  rcases runMain_take env o with ⟨e, hc, hr⟩ | ⟨cfg, k, hc, hk1, hk9, hk3, hs9, htr, -⟩
  · rw [hr]
    refine ⟨?_, List.sorted_nil, List.nodup_nil⟩
    exact List.nil_prefix
  · have hmapFull : (fullT cfg o).map stage = [0, 1, 2, 3, 4, 5, 6, 7, 8] := rfl
    have hmap : (runMain env o).2.map stage =
        ([0, 1, 2, 3, 4, 5, 6, 7, 8] : List Nat).take k := by
      rw [htr, List.map_take, hmapFull]
    rw [hmap]
    refine ⟨?_, ?_, ?_⟩
    · exact List.take_prefix k _
    · exact List.Pairwise.sublist (List.take_sublist k _) (by decide)
    · exact List.Nodup.sublist (List.take_sublist k _) (by decide)

/-- C10: every quote event of a run is in the buy direction; at most one
quote is ever fetched, and exactly one as soon as the configuration
loads and the client initializes; the router of any sell event is the
router returned by that quote; and every quote event precedes every buy
event. -/
theorem claim_C10 (env : Env) (o : Oracle) :
    (∀ t a dir, Event.quote t a dir ∈ (runMain env o).2 → dir = true) ∧
    (runMain env o).2.countP isQuoteEv ≤ 1 ∧
    (∀ cfg, AppConfig.from_env env = .ok cfg → o.tradeInit = .ok () →
       (runMain env o).2.countP isQuoteEv = 1) ∧
    (∀ r t a mo rec d, Event.sell r t a mo rec d ∈ (runMain env o).2 →
       ∃ q, o.quoteResult = .ok (r, q)) ∧
    (∀ i j (hi : i < (runMain env o).2.length)
       (hj : j < (runMain env o).2.length),
       isQuoteEv ((runMain env o).2.get ⟨i, hi⟩) = true →
       stage ((runMain env o).2.get ⟨j, hj⟩) = 4 → i < j) := by
  rcases runMain_take env o with ⟨e, hc, hr⟩ | ⟨cfg, k, hc, hk1, hk9, hk3, hs9, htr, hsk⟩
  · rw [hr]
    refine ⟨by simp, by simp, ?_, by simp, ?_⟩
    · intro cfg hcfg _
      rw [hc] at hcfg
      exact absurd hcfg (by simp)
    · intro i j hi hj
      simp at hi
  · have hmapFull : (fullT cfg o).map stage = List.range 9 := rfl
    have hmap : (runMain env o).2.map stage = (List.range 9).take k := by
      rw [htr, List.map_take, hmapFull]
    have hlen : (runMain env o).2.length = k := by
      have h1 := congrArg List.length hmap
      simp [List.length_take] at h1
      omega
    have hget : ∀ i (hi : i < (runMain env o).2.length),
        stage ((runMain env o).2.get ⟨i, hi⟩) = i := by
      intro i hi
      have hik : i < k := by rw [hlen] at hi; exact hi
      have hi9 : i < 9 := by omega
      have e1 : ((runMain env o).2.map stage)[i]? =
          some (stage ((runMain env o).2.get ⟨i, hi⟩)) := by
        rw [List.getElem?_eq_getElem (by simpa using hi)]
        simp [List.getElem_map, List.get_eq_getElem]
      have e2 : ((runMain env o).2.map stage)[i]? = some i := by
        rw [hmap, List.getElem?_take, if_pos hik]
        exact List.getElem?_range hi9
      exact Option.some_injective _ (e1.symm.trans e2)
    refine ⟨?_, ?_, ?_, ?_, ?_⟩
    · intro t a dir hm
      have hm2 : Event.quote t a dir ∈ fullT cfg o :=
        List.take_subset _ _ (htr ▸ hm)
      simp only [fullT, List.mem_cons, List.not_mem_nil, or_false] at hm2
      rcases hm2 with h|h|h|h|h|h|h|h|h <;> simp at h
      exact h.2.2
    · rw [htr]
      have h1 : (fullT cfg o).countP isQuoteEv = 1 := by
        simp [fullT, isQuoteEv, List.countP_cons, List.countP_nil]
      exact le_trans (List.Sublist.countP_le _ (List.take_sublist _ _))
        (le_of_eq h1)
    · intro cfg2 hcfg ht2
      rw [hc] at hcfg
      injection hcfg with he
      subst he
      have h3 := hk3 ht2
      rw [htr]
      interval_cases k <;>
        simp [fullT, isQuoteEv, List.countP_cons, List.countP_nil]
    · intro r t a mo rec d hmem
      obtain ⟨router, quoted, b, hq, hbal, hb0⟩ := hs9 (hsk r t a mo rec d hmem)
      have hm2 : Event.sell r t a mo rec d ∈ fullT cfg o :=
        List.take_subset _ _ (htr ▸ hmem)
      simp only [fullT, List.mem_cons, List.not_mem_nil, or_false] at hm2
      rcases hm2 with h|h|h|h|h|h|h|h|h <;> simp at h
      rw [hq] at h
      simp [Except.toOption] at h
      exact ⟨quoted, by rw [hq, h.1]⟩
    · intro i j hi hj hqv hst
      have h2 := isQuoteEv_stage hqv
      have hii := hget i hi
      have hjj := hget j hj
      omega

/-- C10 witness: the concrete successful run fetches exactly one quote,
and its sell's router 7 is the router the quote returned. -/
theorem claim_C10_witness :
    (runMain envOk oracleOk).2.countP isQuoteEv = 1 ∧
    ∃ q, oracleOk.quoteResult = .ok (7, q) := by
  have h := claim_C10 envOk oracleOk
  exact ⟨h.2.2.1 cfgOk rfl rfl,
    h.2.2.2.1 7 cfgOk.token 990000 0 (cfgOk.recipient.getD oracleOk.walletAddress)
      (cfgOk.deadline_u256 oracleOk.now) (by decide)⟩
